import Mathlib

/-!
Shallow embedding of the ssd1306 NanoEngine scheduler/input layer
(NanoEngineBase, from the nano engine core translation unit) and of the
ST7735 windowed-write interface (InterfaceST7735), together with proofs
of the specified properties.

Machine integers are modelled as Nat with explicit reduction:
uint8_t fields are stored mod 256, uint32_t arithmetic is mod 2 ^ 32.
Function-pointer callback slots are modelled as Option values; invoking
a null pointer is a fallible operation returning none.
-/

namespace SSD1306

/-- Modelled from the spec: the BUTTON_ constants live in the nano engine
core header, which is not among the available sources.  Spec section 3
describes the Button State as "a bitmask of currently-pressed logical
buttons", so each logical button is a distinct single-bit mask and
BUTTON_NONE is the empty mask. -/
def BUTTON_NONE : Nat := 0

/-- Modelled from the spec: single-bit mask for the DOWN button. -/
def BUTTON_DOWN : Nat := 1

/-- Modelled from the spec: single-bit mask for the LEFT button. -/
def BUTTON_LEFT : Nat := 2

/-- Modelled from the spec: single-bit mask for the RIGHT button. -/
def BUTTON_RIGHT : Nat := 4

/-- Modelled from the spec: single-bit mask for the UP button. -/
def BUTTON_UP : Nat := 8

/-- Modelled from the spec: single-bit mask for the A button. -/
def BUTTON_A : Nat := 16

/-- Modelled from the spec: single-bit mask for the B button. -/
def BUTTON_B : Nat := 32

/-- uint32_t subtraction as performed by `(uint32_t)(millis() - m_lastFrameTs)`:
the difference of two 32-bit values, taken modulo 2 ^ 32. -/
def sub32 (a b : Nat) : Nat := (a % 2 ^ 32 + 2 ^ 32 - b % 2 ^ 32) % 2 ^ 32

/-- The value of the Arduino millisecond clock at true elapsed time t:
millis() returns a uint32_t, so the true time wrapped modulo 2 ^ 32. -/
def millis (t : Nat) : Nat := t % 2 ^ 32

/-- The static state of NanoEngineBase: frame duration, fps, cpu load
(uint8_t fields), last-frame timestamp (uint32_t), the three callback
pointers (m_onDraw, m_onButtons, m_loop) and the z-keypad pin.
A TNanoEngineGetButtons callback is modelled as a function from the
current analog/port reading environment to the returned button mask;
m_onDraw and m_loop are opaque handlers identified by a tag. -/
structure EngineState where
  m_frameDurationMs : Nat
  m_fps : Nat
  m_cpuLoad : Nat
  m_lastFrameTs : Nat
  m_onDraw : Option Nat
  m_onButtons : Option (Nat → Nat)
  m_loop : Option Nat
  s_zkeypadPin : Nat

/-- ENGINE_DEFAULT_FPS = 30. -/
def ENGINE_DEFAULT_FPS : Nat := 30

/-- The initial static state: m_frameDurationMs = 1000/ENGINE_DEFAULT_FPS,
m_fps = ENGINE_DEFAULT_FPS, m_cpuLoad = 0, callbacks null; static storage
gives m_lastFrameTs and s_zkeypadPin zero initialization. -/
def initState : EngineState :=
  { m_frameDurationMs := 1000 / ENGINE_DEFAULT_FPS
    m_fps := ENGINE_DEFAULT_FPS
    m_cpuLoad := 0
    m_lastFrameTs := 0
    m_onDraw := none
    m_onButtons := none
    m_loop := none
    s_zkeypadPin := 0 }

/-- NanoEngineBase::setFrameRate: m_fps = fps; m_frameDurationMs = 1000/fps.
Both destination fields are uint8_t, hence the stored values are reduced
mod 256 (the fps argument is itself a uint8_t parameter). -/
def setFrameRate (fps : Nat) (st : EngineState) : EngineState :=
  { st with m_fps := fps % 256, m_frameDurationMs := (1000 / fps) % 256 }

/-- NanoEngineBase::nextFrame at clock value now (the uint32_t returned by
millis()).  Returns (needUpdate, resulting state, whether m_loop was
invoked): needUpdate = (uint32_t)(millis() - m_lastFrameTs) >= m_frameDurationMs;
if (needUpdate && m_loop) m_loop(); return needUpdate.  No field of the
static state is written. -/
def nextFrame (now : Nat) (st : EngineState) : Bool × EngineState × Bool :=
  let needUpdate : Bool := decide (st.m_frameDurationMs ≤ sub32 now st.m_lastFrameTs)
  (needUpdate, st, needUpdate && st.m_loop.isSome)

/-- NanoEngineBase::pressed: return (m_onButtons() & buttons) == buttons.
The callback pointer is invoked unconditionally; when it is null the
call has no defined result (none). -/
def pressed (st : EngineState) (env buttons : Nat) : Option Bool :=
  st.m_onButtons.map (fun f => decide (Nat.land (f env) buttons = buttons))

/-- NanoEngineBase::notPressed: return (m_onButtons() & buttons) == 0.
The callback pointer is invoked unconditionally; when it is null the
call has no defined result (none). -/
def notPressed (st : EngineState) (env buttons : Nat) : Option Bool :=
  st.m_onButtons.map (fun f => decide (Nat.land (f env) buttons = 0))

/-- NanoEngineBase::zkeypadButtons: decode an analog reading through the
fixed threshold ladder; the Z-keypad has only 5 analog buttons, no
button B. -/
def zkeypadButtons (buttonValue : Nat) : Nat :=
  if buttonValue < 100 then BUTTON_RIGHT
  else if buttonValue < 200 then BUTTON_UP
  else if buttonValue < 400 then BUTTON_DOWN
  else if buttonValue < 600 then BUTTON_LEFT
  else if buttonValue < 800 then BUTTON_A
  else BUTTON_NONE

/-- NanoEngineBase::connectCustomKeys: m_onButtons = handler. -/
def connectCustomKeys (handler : Nat → Nat) (st : EngineState) : EngineState :=
  { st with m_onButtons := some handler }

/-- NanoEngineBase::connectZKeypad: store the pin and install
zkeypadButtons as the button source. -/
def connectZKeypad (analogPin : Nat) (st : EngineState) : EngineState :=
  { st with s_zkeypadPin := analogPin % 256, m_onButtons := some zkeypadButtons }

/-- Modelled from the spec: the full Updating pass around nextFrame.  The
frame-commit step (redraw of dirty tiles and the lastFrameTimestamp
update) lives in the templated NanoEngine display code, which is not
among the available sources; spec section 4.4 states that on the
Idle-to-Updating transition the hook runs, dirty tiles are redrawn, and
then lastFrameTimestamp is updated (to the current millis() clock value,
i.e. the call time).  When nextFrame returns false nothing happens. -/
def enginePass (now : Nat) (st : EngineState) : Bool × EngineState :=
  if (nextFrame now st).1 then
    (true, { (nextFrame now st).2.1 with m_lastFrameTs := now % 2 ^ 32 })
  else
    (false, (nextFrame now st).2.1)

end SSD1306

namespace SSD1306

/-- State of the ST7735 windowed-write interface: fixed surface geometry
plus the currently open RAM window (x, y, resolved width), if any. -/
structure ST7735State where
  width : Nat
  height : Nat
  openWindow : Option (Nat × Nat × Nat)

/-- Modelled from the spec: InterfaceST7735::startBlock.  Its body (the
inline implementation file) is not among the available sources; the
header documents that width 0 makes the library set the right boundary
of the RAM block to the right column of the display, and spec sections
3/4.1/4.2 state that w == 0 resolves to surfaceWidth - x, computed once
at open time.  The function computes the rectangular RAM-window
registers from the resolved width, records the open window, and emits
the column-address, row-address and memory-write command bytes. -/
def startBlock (x y w : Nat) (st : ST7735State) : ST7735State × List Nat :=
  let rw := if w = 0 then st.width - x else w
  ({ st with openWindow := some (x, y, rw) },
   [0x2A, x, x + rw - 1, 0x2B, y, st.height - 1, 0x2C])

/-- Modelled from the spec: InterfaceST7735::nextBlock.  Its body is not
among the available sources; the header documents that for ST7735 it
does nothing (the controller is directly addressed, rows auto-wrap
within the window), and spec section 4.1 calls nextPage a no-op for
directly-addressed controllers.  It sends no bytes and changes no
state. -/
def nextBlock (st : ST7735State) : ST7735State × List Nat := (st, [])

/-! ## Helper lemmas -/

lemma land_eq_right_iff (s m : Nat) :
    Nat.land s m = m ↔ ∀ i, m.testBit i → s.testBit i := by
  have hland : Nat.land s m = s &&& m := rfl
  constructor
  · intro h i hi
    have hbit := congrArg (fun t => Nat.testBit t i) h
    simp only [hland, Nat.testBit_land] at hbit
    rw [hi] at hbit
    simpa using hbit
  · intro h
    apply Nat.eq_of_testBit_eq
    intro i
    rw [hland, Nat.testBit_land]
    by_cases hmi : m.testBit i
    · simp [hmi, h i hmi]
    · simp [Bool.not_eq_true] at hmi
      simp [hmi]

lemma land_eq_zero_iff (s m : Nat) :
    Nat.land s m = 0 ↔ ∀ i, ¬(s.testBit i ∧ m.testBit i) := by
  have hland : Nat.land s m = s &&& m := rfl
  constructor
  · intro h i hi
    obtain ⟨hsi, hmi⟩ := hi
    have hbit := congrArg (fun t => Nat.testBit t i) h
    simp only [hland, Nat.testBit_land, Nat.zero_testBit] at hbit
    rw [hsi, hmi] at hbit
    cases hbit
  · intro h
    apply Nat.eq_of_testBit_eq
    intro i
    rw [hland, Nat.testBit_land, Nat.zero_testBit]
    by_cases hsi : s.testBit i
    · by_cases hmi : m.testBit i
      · exact absurd ⟨hsi, hmi⟩ (h i)
      · simp [Bool.not_eq_true] at hmi
        simp [hmi]
    · simp [Bool.not_eq_true] at hsi
      simp [hsi]

lemma sub32_true_elapsed (T1 T2 : Nat) (h12 : T1 ≤ T2) (hlt : T2 - T1 < 2 ^ 32) :
    sub32 (millis T2) (millis T1) = T2 - T1 := by
  have hN : (2 : Nat) ^ 32 = 4294967296 := by norm_num
  simp only [sub32, millis, hN] at *
  omega

lemma sub32_mod_right (a b : Nat) : sub32 a (b % 2 ^ 32) = sub32 a b := by
  simp [sub32, Nat.mod_mod_of_dvd]

lemma nextFrame_fst (now : Nat) (st : EngineState) :
    (nextFrame now st).1 =
      decide (st.m_frameDurationMs ≤ sub32 now st.m_lastFrameTs) := rfl

/-! ## Claim theorems -/

/-- C1: with an input source f installed, pressed(m) returns true iff
every bit of the sampled mask m is set in the sampled state s = f env,
notPressed(m) returns true iff no bit of m is set in s, and for a mask
with at least one bit set in s and one bit unset in s both queries
return false. -/
theorem pressed_notPressed_bitmask (st : EngineState) (f : Nat → Nat) (env m : Nat)
    (hf : st.m_onButtons = some f) :
    (pressed st env m = some true ↔ ∀ i, m.testBit i → (f env).testBit i) ∧
    (notPressed st env m = some true ↔ ∀ i, ¬((f env).testBit i ∧ m.testBit i)) ∧
    ((∃ i, m.testBit i ∧ (f env).testBit i) →
     (∃ j, m.testBit j ∧ (f env).testBit j = false) →
      pressed st env m = some false ∧ notPressed st env m = some false) := by
  have hp : pressed st env m = some (decide (Nat.land (f env) m = m)) := by
    simp [pressed, hf]
  have hn : notPressed st env m = some (decide (Nat.land (f env) m = 0)) := by
    simp [notPressed, hf]
  refine ⟨?_, ?_, ?_⟩
  · rw [hp]
    simp [land_eq_right_iff]
  · rw [hn]
    simp [land_eq_zero_iff]
  · rintro ⟨i, hmi, hsi⟩ ⟨j, hmj, hsj⟩
    constructor
    · rw [hp]
      simp only [Option.some_inj, decide_eq_false_iff_not]
      intro hEq
      have := (land_eq_right_iff (f env) m).mp hEq j hmj
      rw [hsj] at this
      cases this
    · rw [hn]
      simp only [Option.some_inj, decide_eq_false_iff_not]
      intro hEq
      exact (land_eq_zero_iff (f env) m).mp hEq i ⟨hsi, hmi⟩

theorem pressed_notPressed_bitmask_witness :
    pressed (connectCustomKeys (fun _ => 6) initState) 0 3 = some false ∧
    notPressed (connectCustomKeys (fun _ => 6) initState) 0 3 = some false := by
  have h := pressed_notPressed_bitmask
    (connectCustomKeys (fun _ => 6) initState) (fun _ => 6) 0 3 rfl
  exact h.2.2 ⟨1, by decide, by decide⟩ ⟨0, by decide, by decide⟩

/-- C2: nextFrame returns true iff the elapsed uint32 time since
m_lastFrameTs is at least the frame duration, it never modifies the
scheduler state, and the loop hook is invoked exactly when the frame is
due and a hook is installed. -/
theorem nextFrame_deadline (now : Nat) (st : EngineState) :
    ((nextFrame now st).1 = true ↔
      st.m_frameDurationMs ≤ sub32 now st.m_lastFrameTs) ∧
    (nextFrame now st).2.1 = st ∧
    ((nextFrame now st).2.2 = true ↔
      st.m_frameDurationMs ≤ sub32 now st.m_lastFrameTs ∧ st.m_loop.isSome = true) := by
  refine ⟨?_, rfl, ?_⟩ <;> simp [nextFrame]

/-- C3 counterexample: setFrameRate(3) stores 77 in the 8-bit
m_frameDurationMs field, while 1000 / 3 = 333; the claimed equality
fails for fps = 3. -/
theorem setFrameRate_truncation_counterexample :
    (setFrameRate 3 initState).m_frameDurationMs ≠ 1000 / 3 := by decide

/-- C3 amended: the stored frame duration is (1000 / fps) truncated to
8 bits; whenever 4 ≤ fps the quotient 1000 / fps fits in 8 bits and the
stored duration equals 1000 / fps exactly (33 ms for fps = 30). -/
theorem setFrameRate_duration (fps : Nat) (st : EngineState) (h : 4 ≤ fps) :
    (setFrameRate fps st).m_frameDurationMs = 1000 / fps := by
  have h2 : 1000 / fps ≤ 1000 / 4 := Nat.div_le_div_left h (by norm_num)
  have h4 : (1000 : Nat) / 4 = 250 := by norm_num
  simp only [setFrameRate]
  exact Nat.mod_eq_of_lt (by omega)

theorem setFrameRate_duration_witness :
    4 ≤ 30 ∧ (setFrameRate 30 initState).m_frameDurationMs = 1000 / 30 ∧
    (1000 : Nat) / 30 = 33 :=
  ⟨by decide, setFrameRate_duration 30 initState (by decide), by decide⟩

/-- C4: for x within the surface bounds, startBlock with width 0 is the
same operation as startBlock with width surfaceWidth - x: it records the
resolved width in the open window at open time and emits the same
command bytes. -/
theorem startBlock_zero_width (st : ST7735State) (x y : Nat) (hx : x < st.width) :
    startBlock x y 0 st = startBlock x y (st.width - x) st ∧
    (startBlock x y 0 st).1.openWindow = some (x, y, st.width - x) := by
  have hne : st.width - x ≠ 0 := by omega
  constructor
  · simp [startBlock, hne]
  · simp [startBlock]

theorem startBlock_zero_width_witness :
    startBlock 5 0 0 { width := 128, height := 160, openWindow := none } =
      startBlock 5 0 123 { width := 128, height := 160, openWindow := none } ∧
    (startBlock 5 0 0
      { width := 128, height := 160, openWindow := none }).1.openWindow =
      some (5, 0, 123) := by
  have h := startBlock_zero_width
    { width := 128, height := 160, openWindow := none } 5 0 (by decide)
  exact ⟨h.1, h.2⟩

/-- C6: setFrameRate only writes m_fps and m_frameDurationMs; the
last-frame timestamp, the draw, button and loop callbacks, the cpu-load
counter and the z-keypad pin are all unchanged. -/
theorem setFrameRate_frame_effect (fps : Nat) (st : EngineState) :
    (setFrameRate fps st).m_lastFrameTs = st.m_lastFrameTs ∧
    (setFrameRate fps st).m_onDraw = st.m_onDraw ∧
    (setFrameRate fps st).m_onButtons = st.m_onButtons ∧
    (setFrameRate fps st).m_loop = st.m_loop ∧
    (setFrameRate fps st).m_cpuLoad = st.m_cpuLoad ∧
    (setFrameRate fps st).s_zkeypadPin = st.s_zkeypadPin ∧
    (setFrameRate fps st).m_fps = fps % 256 ∧
    (setFrameRate fps st).m_frameDurationMs = (1000 / fps) % 256 :=
  ⟨rfl, rfl, rfl, rfl, rfl, rfl, rfl, rfl⟩

/-- C7: for the directly-addressed ST7735, nextBlock sends no bytes and
leaves both the interface state and the currently open window exactly as
they were, also right after a startBlock opened a window. -/
theorem nextBlock_noop (st : ST7735State) (x y w : Nat) :
    nextBlock st = (st, ([] : List Nat)) ∧
    (nextBlock (startBlock x y w st).1).1.openWindow =
      (startBlock x y w st).1.openWindow ∧
    (nextBlock (startBlock x y w st).1).2 = [] :=
  ⟨rfl, rfl, rfl⟩

/-- C8: the button-source callback starts out null, and pressed and
notPressed invoke it unconditionally: in any state with no installed
input source both queries invoke a null pointer and have no defined
result, so installing a source first is a precondition of every button
query. -/
theorem pressed_requires_source (st : EngineState) (env m : Nat)
    (h : st.m_onButtons = none) :
    initState.m_onButtons = none ∧
    pressed st env m = none ∧ notPressed st env m = none := by
  refine ⟨rfl, ?_, ?_⟩ <;> simp [pressed, notPressed, h]

theorem pressed_requires_source_witness :
    initState.m_onButtons = none ∧
    pressed initState 0 5 = none ∧ notPressed initState 0 5 = none :=
  pressed_requires_source initState 0 5 rfl

/-- C5: at 30 fps (33 ms frame duration), two calls to the per-frame
entry point at true times T1 and T2 at most 10 ms apart trigger at most
one Updating pass, and any call whose elapsed time since the last
committed frame is at least 40 ms triggers exactly one pass and sets
m_lastFrameTs to that call's clock value, not to the deadline time. -/
theorem enginePass_30fps (st : EngineState) (T1 T2 : Nat)
    (hdur : st.m_frameDurationMs = 33)
    (h12 : T1 ≤ T2) (hd : T2 - T1 ≤ 10) :
    (¬((enginePass (millis T1) st).1 = true ∧
       (enginePass (millis T2) (enginePass (millis T1) st).2).1 = true)) ∧
    (∀ T, 40 ≤ sub32 (millis T) st.m_lastFrameTs →
       (enginePass (millis T) st).1 = true ∧
       (enginePass (millis T) st).2.m_lastFrameTs = millis T) := by
  constructor
  · rintro ⟨hp1, hp2⟩
    by_cases h1 : (nextFrame (millis T1) st).1 = true
    · have h21 : (nextFrame (millis T1) st).2.1 = st := rfl
      have hst1 : (enginePass (millis T1) st).2 =
          { st with m_lastFrameTs := millis T1 % 2 ^ 32 } := by
        simp [enginePass, h1, h21]
      have hsub : sub32 (millis T2) (millis T1 % 2 ^ 32) = T2 - T1 := by
        rw [sub32_mod_right]
        exact sub32_true_elapsed T1 T2 h12 (by omega)
      have hnf2 : (nextFrame (millis T2)
          { st with m_lastFrameTs := millis T1 % 2 ^ 32 }).1 = false := by
        show decide (st.m_frameDurationMs ≤
          sub32 (millis T2) (millis T1 % 2 ^ 32)) = false
        rw [hdur, hsub, decide_eq_false_iff_not]
        omega
      have hfalse : (enginePass (millis T2) (enginePass (millis T1) st).2).1 = false := by
        rw [hst1]
        unfold enginePass
        rw [hnf2]
        simp
      rw [hp2] at hfalse
      cases hfalse
    · have hfalse : (enginePass (millis T1) st).1 = false := by
        simp [enginePass, h1]
      rw [hp1] at hfalse
      cases hfalse
  · intro T hT
    have hneed : (nextFrame (millis T) st).1 = true := by
      rw [nextFrame_fst, hdur]
      simp only [decide_eq_true_eq]
      omega
    have hmm : millis T % 2 ^ 32 = millis T := Nat.mod_mod_of_dvd T dvd_rfl
    constructor
    · simp [enginePass, hneed]
    · have hgoal : (enginePass (millis T) st).2.m_lastFrameTs = millis T % 2 ^ 32 := by
        unfold enginePass
        rw [hneed]
        simp
      rw [hgoal]
      exact hmm

theorem enginePass_30fps_witness :
    ¬((enginePass (millis 100) initState).1 = true ∧
      (enginePass (millis 105) (enginePass (millis 100) initState).2).1 = true) ∧
    ((enginePass (millis 50) initState).1 = true ∧
     (enginePass (millis 50) initState).2.m_lastFrameTs = millis 50) := by
  have h := enginePass_30fps initState 100 105 (by decide) (by decide) (by decide)
  exact ⟨h.1, h.2 50 (by decide)⟩

/-- C9: nextFrame compares the elapsed time as a 32-bit difference: for
true times T1 ≤ T2 with T2 - T1 below 2 ^ 32, the computed difference of
the wrapped millisecond clock values equals the true elapsed time, so
the deadline decision is correct across clock wraparound. -/
theorem nextFrame_wraparound (st : EngineState) (T1 T2 : Nat)
    (h12 : T1 ≤ T2) (hlt : T2 - T1 < 2 ^ 32) (hts : st.m_lastFrameTs = millis T1) :
    sub32 (millis T2) st.m_lastFrameTs = T2 - T1 ∧
    ((nextFrame (millis T2) st).1 = true ↔ st.m_frameDurationMs ≤ T2 - T1) := by
  have h := sub32_true_elapsed T1 T2 h12 hlt
  rw [hts]
  refine ⟨h, ?_⟩
  simp [nextFrame, hts, h]

theorem nextFrame_wraparound_witness :
    sub32 (millis (2 ^ 32 + 40))
      ({ initState with m_lastFrameTs := millis (2 ^ 32 - 5) } :
        EngineState).m_lastFrameTs = 45 ∧
    (nextFrame (millis (2 ^ 32 + 40))
      { initState with m_lastFrameTs := millis (2 ^ 32 - 5) }).1 = true := by
  have h := nextFrame_wraparound
    { initState with m_lastFrameTs := millis (2 ^ 32 - 5) }
    (2 ^ 32 - 5) (2 ^ 32 + 40) (by norm_num) (by norm_num) rfl
  have h45 : (2 ^ 32 + 40) - (2 ^ 32 - 5) = 45 := by norm_num
  constructor
  · rw [h.1, h45]
  · exact h.2.mpr (by rw [h45]; decide)

/-- C10: the Z-keypad decoder maps an analog reading to exactly one
button through the fixed threshold ladder 100 RIGHT, 200 UP, 400 DOWN,
600 LEFT, 800 A, returning BUTTON_NONE for readings of 800 and above; it
never returns BUTTON_B and its result is always a single-bit mask or
zero, never a combination. -/
theorem zkeypadButtons_ladder (v : Nat) :
    (zkeypadButtons v = BUTTON_RIGHT ↔ v < 100) ∧
    (zkeypadButtons v = BUTTON_UP ↔ 100 ≤ v ∧ v < 200) ∧
    (zkeypadButtons v = BUTTON_DOWN ↔ 200 ≤ v ∧ v < 400) ∧
    (zkeypadButtons v = BUTTON_LEFT ↔ 400 ≤ v ∧ v < 600) ∧
    (zkeypadButtons v = BUTTON_A ↔ 600 ≤ v ∧ v < 800) ∧
    (zkeypadButtons v = BUTTON_NONE ↔ 800 ≤ v) ∧
    zkeypadButtons v ≠ BUTTON_B ∧
    (zkeypadButtons v = 0 ∨ ∃ i, zkeypadButtons v = 2 ^ i) := by
  unfold zkeypadButtons BUTTON_RIGHT BUTTON_UP BUTTON_DOWN BUTTON_LEFT
    BUTTON_A BUTTON_NONE BUTTON_B
  split_ifs with h1 h2 h3 h4 h5 <;>
    refine ⟨?_, ?_, ?_, ?_, ?_, ?_, ?_, ?_⟩ <;>
    first
      | (constructor <;> intro hx <;> first | exact hx.elim | omega)
      | omega
      | exact Or.inl rfl
      | exact Or.inr ⟨0, rfl⟩
      | exact Or.inr ⟨1, rfl⟩
      | exact Or.inr ⟨2, rfl⟩
      | exact Or.inr ⟨3, rfl⟩
      | exact Or.inr ⟨4, rfl⟩

end SSD1306
